import Mathlib

/-!
# Verification of the ShogunOSC core (OSC dispatcher + Shogun session worker)

Shallow embedding of `src/shogun/shogun_client.py` (class `ShogunWorker`)
and `src/osc/osc_server.py` (class `OSCServer`).

Modelling conventions:
* A device-API call that may raise an exception is modelled as
  `Except Unit α`: `.error ()` is a raised exception, `.ok a` is a normal
  return with value `a` (whose truthiness mirrors the Python `Result`).
* The vendor API (`vicon_core_api.Client` / `shogun_live_api.CaptureServices`)
  is an external oracle: a `Device` record gives, for each API method, the
  outcome of its i-th invocation.  A `Counters` record tracks how many times
  each method has been called, so successive calls consume successive oracle
  entries.
* Qt signals emitted by the worker are recorded, in emission order, in an
  event list; `logging` calls are recorded as `(level, tag)` pairs (tags
  abbreviate the Russian log messages of the source).
* `asyncio.sleep(0.1)` slices advance an explicit slice-clock `t`; the
  cooperative `self.running` flag is an external signal `running : Nat → Bool`
  read at the current slice time (it is mutated from another thread by
  `stop()` in the source).
* Configuration constants (`config.MAX_RECONNECT_ATTEMPTS`,
  `config.BASE_RECONNECT_DELAY`, `config.MAX_RECONNECT_DELAY`) come from a
  `config.py` module that is not part of the two embedded source files; they
  are carried as an abstract `Config` parameter.
-/

/-- Result of one device-API call: `.error ()` models a raised exception,
`.ok a` a normal return. -/
abbrev DevRes (α : Type) := Except Unit α

/-- Oracle for the vendor device API: the outcome of the i-th call of each
method.  `set_capture_description` may be absent from the API
(`hasattr` check in the source), hence the `Option`. -/
structure Device where
  /-- The outcome of the i-th `Client('localhost')` + `CaptureServices` construction:
  `true` = succeeds, `false` = raises. -/
  clientCtor : Nat → Bool
  /-- The i-th `capture.latest_capture_state()` call (string status or exception). -/
  latestState : Nat → DevRes String
  /-- The i-th `capture.capture_name()` call: `(result truthiness, name)`. -/
  captureNameQ : Nat → DevRes (Bool × String)
  /-- The i-th `capture.capture_folder()` call: `(result truthiness, folder)`. -/
  captureFolderQ : Nat → DevRes (Bool × String)
  /-- The i-th `capture.set_capture_name(...)` call (truthiness of the result). -/
  setNameC : Nat → DevRes Bool
  /-- The i-th `capture.set_capture_folder(...)` call. -/
  setFolderC : Nat → DevRes Bool
  /-- The i-th `capture.set_capture_description(...)` call; `none` when the API
  version lacks the method (`hasattr(self.capture, 'set_capture_description')`
  is false). -/
  setDescriptionC : Option (Nat → DevRes Bool)
  /-- The i-th `capture.start_capture()` call. -/
  startCapC : Nat → DevRes Bool
  /-- The i-th `capture.stop_capture(0)` call. -/
  stopCapC : Nat → DevRes Bool

/-- Number of calls made so far to each device-API method. -/
structure Counters where
  ctor : Nat := 0
  latest : Nat := 0
  nameQ : Nat := 0
  folderQ : Nat := 0
  setName : Nat := 0
  setFolder : Nat := 0
  setDesc : Nat := 0
  start : Nat := 0
  stop : Nat := 0
deriving Repr, DecidableEq

/-- Mutable fields of `ShogunWorker` (minus the event-loop plumbing). -/
structure Worker where
  /-- Models `self.connected` -/
  connected : Bool := false
  /-- Models `self.shogun_client is not None` -/
  hasClient : Bool := false
  /-- Models `self.capture is not None` -/
  hasCapture : Bool := false
  /-- Models `self.shogun_pid` -/
  shogunPid : Option Nat := none
  /-- Models `self._current_capture_name` -/
  currentName : String := ""
  /-- Models `self._current_capture_folder` -/
  currentFolder : String := ""
  /-- Models `self._current_capture_description` -/
  currentDescription : String := ""
deriving Repr, DecidableEq

/-- Qt signals emitted by `ShogunWorker`, in emission order. -/
inductive Event where
  /-- Models `connection_signal.emit b` -/
  | connection (b : Bool)
  /-- Models `status_signal.emit s` -/
  | status (s : String)
  /-- Models `recording_signal.emit b` -/
  | recording (b : Bool)
  /-- Models `capture_name_changed_signal.emit s` -/
  | nameChanged (s : String)
  /-- Models `capture_folder_changed_signal.emit s` -/
  | folderChanged (s : String)
  /-- Models `capture_error_signal.emit msg` -/
  | captureError (msg : String)
deriving Repr, DecidableEq

/-- Python `logging` levels used by the two modules. -/
inductive LogLevel where
  | debug | info | warning | error
deriving Repr, DecidableEq

/-- Full observable state threaded through the embedded worker methods. -/
structure St where
  w : Worker
  c : Counters
  /-- The emitted Qt signals, oldest first -/
  events : List Event := []
  /-- The log records `(level, tag)`, oldest first -/
  logs : List (LogLevel × String) := []
  /-- The slice-clock: number of 100 ms `asyncio.sleep` slices elapsed -/
  t : Nat := 0
deriving Repr, DecidableEq

/-- Models `signal.emit e` -/
def emit (e : Event) (s : St) : St := { s with events := s.events ++ [e] }

/-- Models `self.logger.<lv>(m)` -/
def logAt (lv : LogLevel) (m : String) (s : St) : St :=
  { s with logs := s.logs ++ [(lv, m)] }

/-- Does `pat` occur as a prefix of some suffix of the list?  (Structural
recursion, so concrete instances reduce in the kernel.) -/
def containsSubAux (pat : List Char) : List Char → Bool
  | [] => pat.isEmpty
  | c :: rest => List.isPrefixOf pat (c :: rest) || containsSubAux pat rest

/-- Python `pat in s` for strings (substring test). -/
def containsSub (s pat : String) : Bool := containsSubAux pat.data s.data

/-- Perform the next `latest_capture_state()` call. -/
def callLatest (d : Device) (s : St) : DevRes String × St :=
  (d.latestState s.c.latest, { s with c := { s.c with latest := s.c.latest + 1 } })

/-- Perform the next `capture_name()` call. -/
def callNameQ (d : Device) (s : St) : DevRes (Bool × String) × St :=
  (d.captureNameQ s.c.nameQ, { s with c := { s.c with nameQ := s.c.nameQ + 1 } })

/-- Perform the next `capture_folder()` call. -/
def callFolderQ (d : Device) (s : St) : DevRes (Bool × String) × St :=
  (d.captureFolderQ s.c.folderQ, { s with c := { s.c with folderQ := s.c.folderQ + 1 } })

/-- Perform the next `set_capture_name(...)` call. -/
def callSetName (d : Device) (s : St) : DevRes Bool × St :=
  (d.setNameC s.c.setName, { s with c := { s.c with setName := s.c.setName + 1 } })

/-- Perform the next `set_capture_folder(...)` call. -/
def callSetFolder (d : Device) (s : St) : DevRes Bool × St :=
  (d.setFolderC s.c.setFolder, { s with c := { s.c with setFolder := s.c.setFolder + 1 } })

/-- Perform the next `set_capture_description(...)` call through oracle `f`. -/
def callSetDesc (f : Nat → DevRes Bool) (s : St) : DevRes Bool × St :=
  (f s.c.setDesc, { s with c := { s.c with setDesc := s.c.setDesc + 1 } })

/-- Perform the next `start_capture()` call. -/
def callStart (d : Device) (s : St) : DevRes Bool × St :=
  (d.startCapC s.c.start, { s with c := { s.c with start := s.c.start + 1 } })

/-- Perform the next `stop_capture(0)` call. -/
def callStop (d : Device) (s : St) : DevRes Bool × St :=
  (d.stopCapC s.c.stop, { s with c := { s.c with stop := s.c.stop + 1 } })

/-- Reconnect / polling configuration (from the external `config` module). -/
structure Config where
  /-- Models `config.MAX_RECONNECT_ATTEMPTS` -/
  maxAttempts : Nat
  /-- Models `config.BASE_RECONNECT_DELAY` (seconds) -/
  baseDelay : ℚ
  /-- Models `config.MAX_RECONNECT_DELAY` (seconds) -/
  maxDelay : ℚ

/-- Models `'Started' in status` — the recording test of `ShogunWorker.check_shogun`. -/
def containsStarted (status : String) : Bool := containsSub status "Started"

/-- Models `ShogunWorker._test_connection`: `str(self.capture.latest_capture_state())`
inside `try`. -/
def test_connection (d : Device) (s : St) : Bool × St :=
  let (r, s) := callLatest d s
  match r with
  | .ok _ => (true, s)
  | .error _ => (false, logAt .debug "connection test failed" s)

/-- Models `ShogunWorker.connect_shogun`: construct the client, probe liveness, then
snapshot the current capture name/folder (inner `try` swallows exceptions;
only a successful folder query emits `capture_folder_changed_signal`). -/
def connect_shogun (d : Device) (s : St) : Bool × St :=
  let s := logAt .info "connecting" s
  if d.clientCtor s.c.ctor then
    let s := { s with c := { s.c with ctor := s.c.ctor + 1 },
                      w := { s.w with hasClient := true, hasCapture := true } }
    let (ok, s) := test_connection d s
    if ok then
      let (rn, s) := callNameQ d s
      match rn with
      | .error _ =>
        (true, logAt .info "connected" (logAt .debug "settings query failed" s))
      | .ok (res, captureName) =>
        let s := if res then
            logAt .info "current capture name"
              { s with w := { s.w with currentName := captureName } }
          else s
        let (rf, s) := callFolderQ d s
        match rf with
        | .error _ =>
          (true, logAt .info "connected" (logAt .debug "settings query failed" s))
        | .ok (resf, captureFolder) =>
          let s := if resf then
              emit (.folderChanged captureFolder)
                (logAt .info "current capture folder"
                  { s with w := { s.w with currentFolder := captureFolder } })
            else s
          (true, logAt .info "connected" s)
    else (false, logAt .warning "api not responding" s)
  else
    (false, logAt .error "connect error" { s with c := { s.c with ctor := s.c.ctor + 1 } })

/-- Models `ShogunWorker.check_shogun`: recording is active iff the capture-state
string contains `'Started'`; any exception yields `False`. -/
def check_shogun (d : Device) (s : St) : Bool × St :=
  if s.w.hasCapture then
    let (r, s) := callLatest d s
    match r with
    | .ok status => (containsStarted status, s)
    | .error _ => (false, logAt .debug "check state error" s)
  else (false, s)

/-- Backoff delay before the next attempt, computed after `attempt` was
incremented to `n`: `min(base_delay * (1.5 ** (attempt - 1)), MAX_RECONNECT_DELAY)`. -/
def delayFor (cfg : Config) (attempt : Nat) : ℚ :=
  min (cfg.baseDelay * (3 / 2) ^ (attempt - 1)) cfg.maxDelay

/-- Models `int(delay * 10)`: number of 100 ms sleep slices for a backoff wait.
Python `int` truncates toward zero; for the nonnegative delays of a
nonnegative configuration this is the floor used here. -/
def slicesFor (cfg : Config) (attempt : Nat) : Nat :=
  (⌊delayFor cfg attempt * 10⌋).toNat

/-- The chunked backoff wait
`for _ in range(int(delay*10)): if not self.running: return False; await asyncio.sleep(0.1)`.
Returns `(completed, state)`: `completed = false` when the `running` flag was
observed false at the head of a slice (the source then returns `False` from
`reconnect_shogun`). -/
def sliceWait (running : Nat → Bool) (s : St) : Nat → Bool × St
  | 0 => (true, s)
  | n + 1 =>
    if running s.t then sliceWait running { s with t := s.t + 1 } n else (false, s)

/-- The `while attempt < max_attempts and self.running` loop of
`ShogunWorker.reconnect_shogun`.  `fuel` is an upper bound on the remaining
iterations (the source loop terminates because `attempt` grows every
iteration); on a successful connect the source emits
`recording_signal.emit(await self.check_shogun())`. -/
def reconnectLoop (d : Device) (cfg : Config) (running : Nat → Bool) :
    Nat → Nat → St → Bool × Nat × St
  | 0, attempt, s => (false, attempt, s)
  | fuel + 1, attempt, s =>
    if attempt < cfg.maxAttempts && running s.t then
      let (ok, s) := connect_shogun d s
      if ok then
        let (isRec, s) := check_shogun d s
        (true, attempt, emit (.recording isRec) s)
      else
        let attempt := attempt + 1
        let s := logAt .debug "attempt failed, backing off" s
        let (completed, s) := sliceWait running s (slicesFor cfg attempt)
        if completed then reconnectLoop d cfg running fuel attempt s
        else (false, attempt, s)
    else (false, attempt, logAt .error "reconnect failed after max attempts" s)

/-- Models `ShogunWorker.reconnect_shogun`: closing the stale client has no
observable effect in this model (`self.shogun_client` keeps its old value);
then the bounded retry loop runs starting from `attempt = 0`. -/
def reconnect_shogun (d : Device) (cfg : Config) (running : Nat → Bool) (s : St) :
    Bool × St :=
  let s := logAt .info "reconnecting" s
  let r := reconnectLoop d cfg running (cfg.maxAttempts + 1) 0 s
  (r.1, r.2.2)

/-- Models `ShogunWorker.ensure_connection`: if no client/capture handle, connect
fresh; otherwise probe `latest_capture_state()` and on exception fall back to
`reconnect_shogun`. -/
def ensure_connection (d : Device) (cfg : Config) (running : Nat → Bool) (s : St) :
    Bool × St :=
  if s.w.hasClient && s.w.hasCapture then
    let (r, s) := callLatest d s
    match r with
    | .ok _ => (true, s)
    | .error _ => reconnect_shogun d cfg running (logAt .debug "connection check error" s)
  else connect_shogun d s

/-- Models `ShogunWorker.startcapture`.  Returns `some status` for the Python
`{"status": ...}` dict and `none` for `None`. -/
def startcapture (d : Device) (cfg : Config) (running : Nat → Bool) (s : St) :
    Option String × St :=
  let (ok, s) := ensure_connection d cfg running s
  if ok then
    let (isRec, s) := check_shogun d s
    if isRec then (some "already_recording", logAt .info "already recording" s)
    else
      let (r, s) := callStart d s
      match r with
      | .ok res =>
        if res then (some "started", logAt .info "capture started" s)
        else
          (none, emit (.captureError "start rejected") (logAt .error "start rejected" s))
      | .error _ =>
        let s := emit (.captureError "start exception") (logAt .error "start exception" s)
        let (rok, s) := reconnect_shogun d cfg running s
        if rok then
          let (r2, s) := callStart d s
          match r2 with
          | .ok res2 =>
            if res2 then
              (some "started_after_reconnect",
                logAt .info "capture started after reconnect" s)
            else
              (none, emit (.captureError "start rejected after reconnect")
                (logAt .error "start rejected after reconnect" s))
          | .error _ =>
            (none, emit (.captureError "start exception after reconnect")
              (logAt .error "start exception after reconnect" s))
        else (none, s)
  else (none, emit (.captureError "no connection") (logAt .error "no connection" s))

/-- Models `ShogunWorker.stopcapture`. -/
def stopcapture (d : Device) (cfg : Config) (running : Nat → Bool) (s : St) :
    Bool × St :=
  let (ok, s) := ensure_connection d cfg running s
  if ok then
    let (isRec, s) := check_shogun d s
    if isRec then
      let (r, s) := callStop d s
      match r with
      | .ok res =>
        if res then (true, logAt .info "capture stopped" s)
        else (false, emit (.captureError "stop rejected") (logAt .error "stop rejected" s))
      | .error _ =>
        let s := emit (.captureError "stop exception") (logAt .error "stop exception" s)
        let (rok, s) := reconnect_shogun d cfg running s
        if rok then
          let (r2, s) := callStop d s
          match r2 with
          | .ok res2 =>
            if res2 then (true, logAt .info "capture stopped after reconnect" s)
            else
              (false, emit (.captureError "stop rejected after reconnect")
                (logAt .error "stop rejected after reconnect" s))
          | .error _ =>
            (false, emit (.captureError "stop exception after reconnect")
              (logAt .error "stop exception after reconnect" s))
        else (false, s)
    else (true, logAt .info "not recording" s)
  else (false, emit (.captureError "no connection") (logAt .error "no connection" s))

/-- Models `ShogunWorker.set_capture_name`: one device call, no reconnect, no retry;
exceptions are logged and turned into `False`. -/
def set_capture_name (d : Device) (name : String) (s : St) : Bool × St :=
  if s.w.hasCapture then
    let (r, s) := callSetName d s
    match r with
    | .ok res =>
      if res then
        (true, logAt .info "capture name set"
          { s with w := { s.w with currentName := name } })
      else (false, logAt .error "set name failed" s)
    | .error _ => (false, logAt .error "set name exception" s)
  else (false, logAt .error "no connection" s)

/-- Models `ShogunWorker.set_capture_folder`: same shape as `set_capture_name`. -/
def set_capture_folder (d : Device) (folder : String) (s : St) : Bool × St :=
  if s.w.hasCapture then
    let (r, s) := callSetFolder d s
    match r with
    | .ok res =>
      if res then
        (true, logAt .info "capture folder set"
          { s with w := { s.w with currentFolder := folder } })
      else (false, logAt .error "set folder failed" s)
    | .error _ => (false, logAt .error "set folder exception" s)
  else (false, logAt .error "no connection" s)

/-- Models `ShogunWorker.set_capture_description`: a `hasattr` capability check
guards the call; an absent method yields a warning log and `False`. -/
def set_capture_description (d : Device) (description : String) (s : St) : Bool × St :=
  if s.w.hasCapture then
    match d.setDescriptionC with
    | some f =>
      let (r, s) := callSetDesc f s
      match r with
      | .ok res =>
        if res then
          (true, logAt .info "capture description set"
            { s with w := { s.w with currentDescription := description } })
        else (false, logAt .error "set description failed" s)
      | .error _ => (false, logAt .error "set description exception" s)
    | none => (false, logAt .warning "api lacks set_capture_description" s)
  else (false, logAt .error "no connection" s)

/-- Models `ShogunWorker._check_capture_settings_change`: query the capture name,
bail out early on exception or a falsy result; only then query the folder. -/
def check_capture_settings_change (d : Device) (s : St) : St :=
  if s.w.hasCapture then
    let (rn, s) := callNameQ d s
    match rn with
    | .error _ => logAt .debug "settings check exception" s
    | .ok (res, captureName) =>
      if res then
        let s :=
          if captureName != s.w.currentName then
            emit (.nameChanged captureName)
              (logAt .info "capture name changed"
                { s with w := { s.w with currentName := captureName } })
          else s
        let (rf, s) := callFolderQ d s
        match rf with
        | .error _ => logAt .debug "settings check exception" s
        | .ok (resf, captureFolder) =>
          if resf then
            if captureFolder != s.w.currentFolder then
              emit (.folderChanged captureFolder)
                (logAt .info "capture folder changed"
                  { s with w := { s.w with currentFolder := captureFolder } })
            else s
          else logAt .debug "folder query failed" s
      else logAt .debug "name query failed" s
  else s

/-- Models `'ShogunLive' in proc_name or 'Shogun Live' in proc_name`. -/
def procNameMatches (n : String) : Bool :=
  containsSub n "ShogunLive" || containsSub n "Shogun Live"

/-- Python truthiness of `self.shogun_pid` (an `int` or `None`). -/
def pidTruthy : Option Nat → Bool
  | none => false
  | some p => p != 0

/-- Models `ShogunWorker.check_shogun_process`: scan the process list for the first
Shogun Live process; a changed PID while one was recorded (and truthy) is
treated as a restart — `self.connected` is reset to `False` but the function
still returns `True` (process present).  The `psutil` iteration itself is
assumed not to raise (its `except` branch returns `False`). -/
def check_shogun_process (procs : List (Nat × String)) (s : St) : Bool × St :=
  match procs.find? (fun p => procNameMatches p.2) with
  | some (pid, _) =>
    if pidTruthy s.w.shogunPid && s.w.shogunPid != some pid then
      (true, logAt .info "shogun restart detected"
        { s with w := { s.w with shogunPid := some pid, connected := false } })
    else (true, { s with w := { s.w with shogunPid := some pid } })
  | none => (false, s)

/-- Modelled from the spec: `config.STATUS_CONNECTED` — `config.py` is not
among the embedded source files; the status text is opaque to every claim. -/
def STATUS_CONNECTED : String := "connected"

/-- Modelled from the spec: `config.STATUS_DISCONNECTED`. -/
def STATUS_DISCONNECTED : String := "disconnected"

/-- One execution of the check batch in the monitoring loop of
`ShogunWorker.run` (the body guarded by
`current_time - self._last_check_time >= self._check_interval`):
process-presence check, then connect / liveness-probe / recording poll /
settings poll, then the unconditional status emission.
`procs` is the process table observed by this tick. -/
def runTick (d : Device) (cfg : Config) (running : Nat → Bool)
    (procs : List (Nat × String)) (s : St) : St :=
  let (shogunRunning, s) := check_shogun_process procs s
  let s :=
    if shogunRunning then
      if s.w.connected then
        let (connOk, s) := ensure_connection d cfg running s
        let s :=
          if connOk then s
          else
            emit (.connection false)
              (logAt .warning "connection lost"
                { s with w := { s.w with connected := false } })
        if s.w.connected then
          let (isRec, s) := check_shogun d s
          let s := emit (.recording isRec) s
          check_capture_settings_change d s
        else s
      else
        let s := logAt .info "shogun detected, connecting" s
        let (ok, s) := connect_shogun d s
        emit (.connection ok) { s with w := { s.w with connected := ok } }
    else
      if s.w.connected then
        emit (.recording false)
          (emit (.connection false)
            (logAt .warning "shogun not detected, connection lost"
              { s with w := { s.w with connected := false } }))
      else s
  emit (.status (if s.w.connected then STATUS_CONNECTED else STATUS_DISCONNECTED)) s

/-- Modelled from the spec: `config.OSC_CAPTURE_ERROR` — the outbound
error-reply address is configured externally; its value is opaque to every
claim. -/
def OSC_CAPTURE_ERROR : String := "/CaptureError"

/-- A `ShogunWorker` operation handed to a worker thread by the dispatcher
(`threading.Thread(target=self._run_async_task, args=(...,)).start()`). -/
inductive SupCall where
  | startRec
  | stopRec
  | setName (s : String)
  | setFolder (f : String)
  | setDescription (s : String)
deriving Repr, DecidableEq

/-- Observable state of an `OSCServer` handler invocation. -/
structure OSCState where
  /-- Models `message_signal.emit(address, value)` emissions, oldest first -/
  messages : List (String × String) := []
  /-- Models `send_osc_message(address, value)` datagrams, oldest first -/
  outbound : List (String × String) := []
  /-- Session-Supervisor operations dispatched to worker threads -/
  supCalls : List SupCall := []
  /-- The log records `(level, tag)` -/
  logs : List (LogLevel × String) := []
deriving Repr, DecidableEq

/-- Models `self.message_signal.emit(address, value)` -/
def oscMsg (address value : String) (o : OSCState) : OSCState :=
  { o with messages := o.messages ++ [(address, value)] }

/-- Models `self.send_osc_message(address, value)` (datagram send; its internal
`try` turns socket failures into a logged `False`, never an exception). -/
def oscSend (address value : String) (o : OSCState) : OSCState :=
  { o with outbound := o.outbound ++ [(address, value)] }

/-- Models `self.logger.<lv>(m)` -/
def oscLog (lv : LogLevel) (m : String) (o : OSCState) : OSCState :=
  { o with logs := o.logs ++ [(lv, m)] }

/-- Start a worker thread running the given supervisor operation. -/
def supInvoke (call : SupCall) (o : OSCState) : OSCState :=
  { o with supCalls := o.supCalls ++ [call] }

/-- The dispatcher's view of `self.shogun_worker`: `none` when no worker was
supplied, `some c` for a worker whose `connected` flag is `c`. -/
abbrev WorkerRef := Option Bool

/-- Models `OSCServer.start_recording`. -/
def osc_start_recording (worker : WorkerRef) (address : String) (_args : List String)
    (o : OSCState) : OSCState :=
  let o := oscMsg address "start recording" (oscLog .info "osc start command" o)
  match worker with
  | some true => supInvoke .startRec o
  | _ => oscSend OSC_CAPTURE_ERROR "cannot start: no connection"
      (oscLog .warning "cannot start: no connection" o)

/-- Models `OSCServer.stop_recording`. -/
def osc_stop_recording (worker : WorkerRef) (address : String) (_args : List String)
    (o : OSCState) : OSCState :=
  let o := oscMsg address "stop recording" (oscLog .info "osc stop command" o)
  match worker with
  | some true => supInvoke .stopRec o
  | _ => oscSend OSC_CAPTURE_ERROR "cannot stop: no connection"
      (oscLog .warning "cannot stop: no connection" o)

/-- Models `OSCServer.set_capture_name` (the handler): an empty argument list is
reported locally (`if not args: ... return`); otherwise the first argument is
the new name and the worker operation runs on its own thread. -/
def osc_set_capture_name (worker : WorkerRef) (address : String) (args : List String)
    (o : OSCState) : OSCState :=
  match args with
  | [] =>
    let errorMsg := "missing capture name"
    oscSend OSC_CAPTURE_ERROR errorMsg
      (oscMsg address ("error: " ++ errorMsg) (oscLog .warning errorMsg o))
  | newName :: _ =>
    let o := oscMsg address ("set capture name: " ++ newName)
      (oscLog .info "osc set name command" o)
    match worker with
    | some true => supInvoke (.setName newName) o
    | _ => oscSend OSC_CAPTURE_ERROR "cannot set name: no connection"
        (oscLog .warning "cannot set name: no connection" o)

/-- Models `OSCServer.set_capture_folder` (the handler). -/
def osc_set_capture_folder (worker : WorkerRef) (address : String) (args : List String)
    (o : OSCState) : OSCState :=
  match args with
  | [] =>
    let errorMsg := "missing capture folder"
    oscSend OSC_CAPTURE_ERROR errorMsg
      (oscMsg address ("error: " ++ errorMsg) (oscLog .warning errorMsg o))
  | newFolder :: _ =>
    let o := oscMsg address ("set capture folder: " ++ newFolder)
      (oscLog .info "osc set folder command" o)
    match worker with
    | some true => supInvoke (.setFolder newFolder) o
    | _ => oscSend OSC_CAPTURE_ERROR "cannot set folder: no connection"
        (oscLog .warning "cannot set folder: no connection" o)

/-- Models `OSCServer.set_capture_description` (the handler). -/
def osc_set_capture_description (worker : WorkerRef) (address : String) (args : List String)
    (o : OSCState) : OSCState :=
  match args with
  | [] =>
    let errorMsg := "missing capture description"
    oscSend OSC_CAPTURE_ERROR errorMsg
      (oscMsg address ("error: " ++ errorMsg) (oscLog .warning errorMsg o))
  | newDescription :: _ =>
    let o := oscMsg address "set capture description"
      (oscLog .info "osc set description command" o)
    match worker with
    | some true => supInvoke (.setDescription newDescription) o
    | _ => oscSend OSC_CAPTURE_ERROR "cannot set description: no connection"
        (oscLog .warning "cannot set description: no connection" o)

/-- Models `OSCServer.default_handler`: unknown addresses are logged at debug level
and surfaced with the raw arguments joined by `", "`. -/
def osc_default_handler (address : String) (args : List String)
    (o : OSCState) : OSCState :=
  let argsStr := if args.isEmpty then "no arguments" else String.intercalate ", " args
  oscMsg address argsStr (oscLog .debug "unknown osc message" o)

/-! ## Concrete fixtures -/

/-- Fresh worker state (all defaults, as set in `ShogunWorker.__init__`). -/
def st0 : St := { w := {}, c := {} }

/-- A worker that is connected, holds client and capture handles, and last
recorded the device PID 5. -/
def stConn : St :=
  { w := { connected := true, hasClient := true, hasCapture := true,
           shogunPid := some 5 }, c := {} }

/-- A healthy device: connects, reports capture state "Stopped", capture name
"A" and an empty capture folder; it lacks `set_capture_description`. -/
def okDev : Device where
  clientCtor := fun _ => true
  latestState := fun _ => .ok "Stopped"
  captureNameQ := fun _ => .ok (true, "A")
  captureFolderQ := fun _ => .ok (true, "")
  setNameC := fun _ => .ok true
  setFolderC := fun _ => .ok true
  setDescriptionC := none
  startCapC := fun _ => .ok true
  stopCapC := fun _ => .ok true

/-- A dead device: every construction and every call raises. -/
def deadDev : Device where
  clientCtor := fun _ => false
  latestState := fun _ => .error ()
  captureNameQ := fun _ => .error ()
  captureFolderQ := fun _ => .error ()
  setNameC := fun _ => .error ()
  setFolderC := fun _ => .error ()
  setDescriptionC := some (fun _ => .error ())
  startCapC := fun _ => .error ()
  stopCapC := fun _ => .error ()

/-- `okDev` whose capture-name query reports a falsy result. -/
def nameFailDev : Device := { okDev with captureNameQ := fun _ => .ok (false, "X") }

/-- One reconnect attempt, no backoff delay. -/
def cfg1 : Config := { maxAttempts := 1, baseDelay := 0, maxDelay := 0 }

/-- Two reconnect attempts, base delay 1 s, cap 100 s. -/
def cfg2 : Config := { maxAttempts := 2, baseDelay := 1, maxDelay := 100 }

/-- Device for the C4 two-invocation scenario: reports "Stopped" for the first
two capture-state reads (the first invocation's connectivity probe and
recording check) and "Started" from then on — i.e. it starts reporting an
active capture once `start_capture` has succeeded. -/
def c4Dev : Device :=
  { okDev with latestState := fun i => .ok (if i < 2 then "Stopped" else "Started") }

/-- Connected worker without a recorded PID (PID plays no role here). -/
def stC4 : St := { w := { connected := true, hasClient := true, hasCapture := true }, c := {} }



deriving instance DecidableEq for Except

/-- Healthy device whose `start_capture` raises on the first call; the
retried call returns `r2`. -/
def startRetryDev (r2 : DevRes Bool) : Device :=
  { okDev with startCapC := fun i => if i = 0 then .error () else r2 }

/-- Healthy device reporting an active capture whose `stop_capture` raises on
the first call; the retried call returns `r2`. -/
def stopRetryDev (r2 : DevRes Bool) : Device :=
  { okDev with latestState := fun _ => .ok "Started",
               stopCapC := fun i => if i = 0 then .error () else r2 }

/-! ## Helper lemmas -/

/- Batteries marks the `Rat` arithmetic operations `@[irreducible]`, which
blocks elaborator-side evaluation of concrete backoff delays; restore the
default reducibility locally so that `decide` can evaluate them. -/
attribute [local semireducible] Rat.mul Rat.inv Rat.add Rat.sub

/-- The always-true running flag (the worker was not asked to stop). -/
def runTrue : Nat → Bool := fun _ => true

lemma connect_shogun_ctor (d : Device) (s : St) :
    (connect_shogun d s).2.c.ctor = s.c.ctor + 1 := by
  unfold connect_shogun test_connection callLatest callNameQ callFolderQ
  simp only [logAt, emit]
  repeat' split
  all_goals simp

lemma connect_shogun_t (d : Device) (s : St) :
    (connect_shogun d s).2.t = s.t := by
  unfold connect_shogun test_connection callLatest callNameQ callFolderQ
  simp only [logAt, emit]
  repeat' split
  all_goals simp

lemma check_shogun_t (d : Device) (s : St) :
    (check_shogun d s).2.t = s.t := by
  by_cases hc : s.w.hasCapture = true <;>
    rcases h : d.latestState s.c.latest with u | str <;>
      simp [check_shogun, callLatest, logAt, hc, h]

lemma check_shogun_ctor (d : Device) (s : St) :
    (check_shogun d s).2.c.ctor = s.c.ctor := by
  by_cases hc : s.w.hasCapture = true <;>
    rcases h : d.latestState s.c.latest with u | str <;>
      simp [check_shogun, callLatest, logAt, hc, h]

/-- With the running flag held true, a backoff wait completes all its slices
and only advances the slice-clock. -/
lemma sliceWait_runTrue : ∀ (n : Nat) (s : St),
    sliceWait runTrue s n = (true, { s with t := s.t + n }) := by
  intro n
  induction n with
  | zero => intro s; simp [sliceWait]
  | succ k ih =>
    intro s
    simp [sliceWait, runTrue, ih, St.mk.injEq]
    omega

/-- A backoff wait never performs device calls. -/
lemma sliceWait_c (running : Nat → Bool) : ∀ (n : Nat) (s : St),
    (sliceWait running s n).2.c = s.c := by
  intro n
  induction n with
  | zero => intro s; simp [sliceWait]
  | succ k ih => intro s; by_cases h : running s.t = true <;> simp [sliceWait, h, ih]

/-- When the i-th client construction raises, `connect_shogun` fails having
consumed exactly that one construction attempt. -/
lemma connect_shogun_fail (d : Device) (s : St) (h : d.clientCtor s.c.ctor = false) :
    connect_shogun d s =
      (false, logAt .error "connect error"
        { (logAt .info "connecting" s) with
            c := { s.c with ctor := s.c.ctor + 1 } }) := by
  simp [connect_shogun, logAt, h]

/-- Whatever the device does, one run of the reconnect loop makes at most
`maxAttempts - attempt` further connect attempts. -/
lemma reconnectLoop_ctor_le (d : Device) (cfg : Config) (running : Nat → Bool) :
    ∀ (fuel attempt : Nat) (s : St),
      (reconnectLoop d cfg running fuel attempt s).2.2.c.ctor ≤
        s.c.ctor + (cfg.maxAttempts - attempt) := by
  intro fuel
  induction fuel with
  | zero => intro a s; simp [reconnectLoop]
  | succ f ih =>
    intro a s
    rw [reconnectLoop]
    by_cases hcond : (decide (a < cfg.maxAttempts) && running s.t) = true
    · rw [if_pos hcond]
      have ha : a < cfg.maxAttempts := by
        have := (Bool.and_eq_true _ _).mp hcond
        exact of_decide_eq_true this.1
      rcases hc : connect_shogun d s with ⟨ok, s1⟩
      have hs1 : s1.c.ctor = s.c.ctor + 1 := by
        have := connect_shogun_ctor d s
        rw [hc] at this
        exact this
      simp only [hc]
      by_cases hok : ok = true
      · subst hok
        rcases hk : check_shogun d s1 with ⟨isRec, s2⟩
        have hs2 : s2.c.ctor = s1.c.ctor := by
          have := check_shogun_ctor d s1
          rw [hk] at this
          exact this
        simp only [hk]
        simp [emit, hs2, hs1]
        omega
      · simp only [Bool.not_eq_true] at hok
        subst hok
        simp only [Bool.false_eq_true, if_false]
        rcases hw : sliceWait running (logAt .debug "attempt failed, backing off" s1)
            (slicesFor cfg (a + 1)) with ⟨completed, s2⟩
        have hs2 : s2.c = s1.c := by
          have := sliceWait_c running (slicesFor cfg (a + 1))
            (logAt .debug "attempt failed, backing off" s1)
          rw [hw] at this
          simpa [logAt] using this
        simp only [hw]
        by_cases hcomp : completed = true
        · subst hcomp
          simp only [if_true]
          calc (reconnectLoop d cfg running f (a + 1) s2).2.2.c.ctor
              ≤ s2.c.ctor + (cfg.maxAttempts - (a + 1)) := ih (a + 1) s2
            _ ≤ s.c.ctor + (cfg.maxAttempts - a) := by
                rw [hs2, hs1]; omega
        · simp only [Bool.not_eq_true] at hcomp
          subst hcomp
          simp only [Bool.false_eq_true, if_false]
          simp [hs2, hs1]
          omega
    · rw [if_neg hcond]
      simp [logAt]

/-- When every client construction raises and the running flag stays true,
the reconnect loop runs `maxAttempts - attempt` more attempts, fails, and
sleeps the full backoff schedule (in 100 ms slices) after every failed
attempt. -/
lemma reconnectLoop_allFail (d : Device) (cfg : Config)
    (hfail : ∀ i, d.clientCtor i = false) :
    ∀ (k fuel attempt : Nat) (s : St), attempt + k = cfg.maxAttempts → k < fuel →
      (reconnectLoop d cfg runTrue fuel attempt s).1 = false ∧
      (reconnectLoop d cfg runTrue fuel attempt s).2.1 = cfg.maxAttempts ∧
      (reconnectLoop d cfg runTrue fuel attempt s).2.2.c.ctor = s.c.ctor + k ∧
      (reconnectLoop d cfg runTrue fuel attempt s).2.2.t =
        s.t + ∑ i ∈ Finset.range k, slicesFor cfg (attempt + 1 + i) := by
  intro k
  induction k with
  | zero =>
    intro fuel a s hak hf
    cases fuel with
    | zero => exact absurd hf (Nat.not_lt_zero _)
    | succ fuel =>
      have hcond : ¬ (decide (a < cfg.maxAttempts) && runTrue s.t) = true := by
        simp [runTrue]; omega
      rw [reconnectLoop, if_neg hcond]
      simp [logAt]
      omega
  | succ kk ih =>
    intro fuel a s hak hf
    cases fuel with
    | zero => exact absurd hf (Nat.not_lt_zero _)
    | succ fuel =>
      have hcond : (decide (a < cfg.maxAttempts) && runTrue s.t) = true := by
        simp [runTrue]; omega
      have key : ∀ (s' : St), s'.c.ctor = s.c.ctor + 1 →
          s'.t = s.t + slicesFor cfg (a + 1) →
          (reconnectLoop d cfg runTrue fuel (a + 1) s').1 = false ∧
          (reconnectLoop d cfg runTrue fuel (a + 1) s').2.1 = cfg.maxAttempts ∧
          (reconnectLoop d cfg runTrue fuel (a + 1) s').2.2.c.ctor = s.c.ctor + (kk + 1) ∧
          (reconnectLoop d cfg runTrue fuel (a + 1) s').2.2.t =
            s.t + ∑ i ∈ Finset.range (kk + 1), slicesFor cfg (a + 1 + i) := by
        intro s' h1 h2
        obtain ⟨r1, r2, r3, r4⟩ := ih fuel (a + 1) s' (by omega) (by omega)
        refine ⟨r1, r2, ?_, ?_⟩
        · rw [r3, h1]; omega
        · rw [r4, h2, Finset.sum_range_succ']
          have hcongr : (∑ i ∈ Finset.range kk, slicesFor cfg (a + 1 + (i + 1))) =
              ∑ i ∈ Finset.range kk, slicesFor cfg (a + 1 + 1 + i) :=
            Finset.sum_congr rfl fun i _ => by congr 1; omega
          rw [hcongr]
          simp only [Nat.add_zero]
          omega
      rw [reconnectLoop, if_pos hcond, connect_shogun_fail d s (hfail _)]
      dsimp only
      rw [sliceWait_runTrue]
      dsimp only [Bool.false_eq_true, if_false, if_true]
      apply key <;> simp [logAt]

/-! ## Claims -/

/-- Claim C1, counterexample: `set_capture_name` on a device whose
`set_capture_name` call raises returns `False` after exactly one device call
(`setName` counter 1 — no retry), with no client construction (`ctor`
counter 0 — no reconnect sequence) and no backoff wait (`t` = 0).  This
contradicts "the operation performs exactly one reconnect sequence and then
retries the same device call exactly once", which the claim asserts for
every device operation including the set-operations. -/
theorem C1_counterexample :
    (set_capture_name deadDev "X" stConn).1 = false ∧
    (set_capture_name deadDev "X" stConn).2.c.setName = 1 ∧
    (set_capture_name deadDev "X" stConn).2.c.ctor = 0 ∧
    (set_capture_name deadDev "X" stConn).2.t = 0 := by
  refine ⟨by decide, by decide, by decide, by decide⟩

/-- Claim C1 (amended): only `startcapture` and `stopcapture` carry the
retry-once policy: when the device call raises they run exactly one reconnect
sequence and — if it reconnects — retry the call exactly once (device-call
counter 2, one client construction), returning `None`/`False` when the retry
raises or is rejected, with no further retry.  The three set-operations
(`set_capture_name`, `set_capture_folder`, `set_capture_description`) perform
no reconnect and no retry on exception: they return `False` after the single
failed call, leaving the construction counter and the backoff clock
untouched. -/
theorem C1_retry_once_amended (r2 : DevRes Bool)
    (d : Device) (s : St) (name folder descr : String) (f : Nat → DevRes Bool)
    (hcap : s.w.hasCapture = true)
    (hN : d.setNameC s.c.setName = .error ())
    (hF : d.setFolderC s.c.setFolder = .error ())
    (hD : d.setDescriptionC = some f) (hDf : f s.c.setDesc = .error ()) :
    ((startcapture (startRetryDev r2) cfg1 runTrue stConn).2.c.start = 2 ∧
     (startcapture (startRetryDev r2) cfg1 runTrue stConn).2.c.ctor = 1 ∧
     (r2 = .ok true →
       (startcapture (startRetryDev r2) cfg1 runTrue stConn).1 =
         some "started_after_reconnect") ∧
     (r2 = .error () ∨ r2 = .ok false →
       (startcapture (startRetryDev r2) cfg1 runTrue stConn).1 = none)) ∧
    ((stopcapture (stopRetryDev r2) cfg1 runTrue stConn).2.c.stop = 2 ∧
     (stopcapture (stopRetryDev r2) cfg1 runTrue stConn).2.c.ctor = 1 ∧
     (r2 = .ok true → (stopcapture (stopRetryDev r2) cfg1 runTrue stConn).1 = true) ∧
     (r2 = .error () ∨ r2 = .ok false →
       (stopcapture (stopRetryDev r2) cfg1 runTrue stConn).1 = false)) ∧
    ((set_capture_name d name s).1 = false ∧
     (set_capture_name d name s).2.c.setName = s.c.setName + 1 ∧
     (set_capture_name d name s).2.c.ctor = s.c.ctor ∧
     (set_capture_name d name s).2.t = s.t ∧
     (set_capture_folder d folder s).1 = false ∧
     (set_capture_folder d folder s).2.c.setFolder = s.c.setFolder + 1 ∧
     (set_capture_folder d folder s).2.c.ctor = s.c.ctor ∧
     (set_capture_folder d folder s).2.t = s.t ∧
     (set_capture_description d descr s).1 = false ∧
     (set_capture_description d descr s).2.c.setDesc = s.c.setDesc + 1 ∧
     (set_capture_description d descr s).2.c.ctor = s.c.ctor ∧
     (set_capture_description d descr s).2.t = s.t) := by
  have hset :
      (set_capture_name d name s).1 = false ∧
      (set_capture_name d name s).2.c.setName = s.c.setName + 1 ∧
      (set_capture_name d name s).2.c.ctor = s.c.ctor ∧
      (set_capture_name d name s).2.t = s.t ∧
      (set_capture_folder d folder s).1 = false ∧
      (set_capture_folder d folder s).2.c.setFolder = s.c.setFolder + 1 ∧
      (set_capture_folder d folder s).2.c.ctor = s.c.ctor ∧
      (set_capture_folder d folder s).2.t = s.t ∧
      (set_capture_description d descr s).1 = false ∧
      (set_capture_description d descr s).2.c.setDesc = s.c.setDesc + 1 ∧
      (set_capture_description d descr s).2.c.ctor = s.c.ctor ∧
      (set_capture_description d descr s).2.t = s.t := by
    refine ⟨?_, ?_, ?_, ?_, ?_, ?_, ?_, ?_, ?_, ?_, ?_, ?_⟩ <;>
      simp [set_capture_name, set_capture_folder, set_capture_description,
        callSetName, callSetFolder, callSetDesc, hcap, hN, hF, hD, hDf, logAt]
  rcases r2 with ⟨u⟩ | b
  · cases u
    exact ⟨⟨by decide, by decide, fun h => absurd h (by decide),
            fun _ => by decide⟩,
           ⟨by decide, by decide, fun h => absurd h (by decide),
            fun _ => by decide⟩, hset⟩
  · cases b
    · exact ⟨⟨by decide, by decide, fun h => absurd h (by decide),
              fun _ => by decide⟩,
             ⟨by decide, by decide, fun h => absurd h (by decide),
              fun _ => by decide⟩, hset⟩
    · exact ⟨⟨by decide, by decide, fun _ => by decide,
              fun h => absurd h (by decide)⟩,
             ⟨by decide, by decide, fun _ => by decide,
              fun h => absurd h (by decide)⟩, hset⟩

/-- Witness for the amended claim C1 at `r2 = .error ()`, `deadDev`,
`stConn`. -/
theorem C1_retry_once_amended_witness :
    (((startcapture (startRetryDev (.error ())) cfg1 runTrue stConn).2.c.start = 2 ∧
      (startcapture (startRetryDev (.error ())) cfg1 runTrue stConn).2.c.ctor = 1 ∧
      ((.error () : DevRes Bool) = .ok true →
        (startcapture (startRetryDev (.error ())) cfg1 runTrue stConn).1 =
          some "started_after_reconnect") ∧
      ((.error () : DevRes Bool) = .error () ∨ (.error () : DevRes Bool) = .ok false →
        (startcapture (startRetryDev (.error ())) cfg1 runTrue stConn).1 = none)) ∧
     ((stopcapture (stopRetryDev (.error ())) cfg1 runTrue stConn).2.c.stop = 2 ∧
      (stopcapture (stopRetryDev (.error ())) cfg1 runTrue stConn).2.c.ctor = 1 ∧
      ((.error () : DevRes Bool) = .ok true →
        (stopcapture (stopRetryDev (.error ())) cfg1 runTrue stConn).1 = true) ∧
      ((.error () : DevRes Bool) = .error () ∨ (.error () : DevRes Bool) = .ok false →
        (stopcapture (stopRetryDev (.error ())) cfg1 runTrue stConn).1 = false)) ∧
     ((set_capture_name deadDev "a" stConn).1 = false ∧
      (set_capture_name deadDev "a" stConn).2.c.setName = stConn.c.setName + 1 ∧
      (set_capture_name deadDev "a" stConn).2.c.ctor = stConn.c.ctor ∧
      (set_capture_name deadDev "a" stConn).2.t = stConn.t ∧
      (set_capture_folder deadDev "b" stConn).1 = false ∧
      (set_capture_folder deadDev "b" stConn).2.c.setFolder = stConn.c.setFolder + 1 ∧
      (set_capture_folder deadDev "b" stConn).2.c.ctor = stConn.c.ctor ∧
      (set_capture_folder deadDev "b" stConn).2.t = stConn.t ∧
      (set_capture_description deadDev "c" stConn).1 = false ∧
      (set_capture_description deadDev "c" stConn).2.c.setDesc = stConn.c.setDesc + 1 ∧
      (set_capture_description deadDev "c" stConn).2.c.ctor = stConn.c.ctor ∧
      (set_capture_description deadDev "c" stConn).2.t = stConn.t)) :=
  C1_retry_once_amended (.error ()) deadDev stConn "a" "b" "c" (fun _ => .error ())
    rfl rfl rfl rfl rfl

/-- Claim C2, counterexample: a poll tick on a connected worker whose device
process is still present (same PID 5) but whose liveness probe raises and
whose reconnect attempt fails: the tick forces `connected` from `true` to
`false` and emits `connection false` — but emits no `recording false` event,
contradicting "whenever the supervisor transitions connected from true to
false ... a recording=false event is emitted".  The last-emitted recording
value therefore stays whatever it was while `connected` is now false. -/
theorem C2_counterexample :
    stConn.w.connected = true ∧
    (runTick deadDev cfg1 runTrue [(5, "ShogunLive")] stConn).w.connected = false ∧
    Event.recording false ∉ (runTick deadDev cfg1 runTrue [(5, "ShogunLive")] stConn).events ∧
    (runTick deadDev cfg1 runTrue [(5, "ShogunLive")] stConn).events =
      [Event.connection false, Event.status STATUS_DISCONNECTED] := by
  refine ⟨by decide, by decide, by decide, by decide⟩

/-- Claim C2 (amended): only the process-gone disconnect carries the
recording reset: when the periodic check finds no Shogun process while the
worker was connected, the tick forces `connected := false` and emits
`connection false` followed by `recording false` (then the status event).
On a liveness-probe failure or a PID change the tick forces
`connected := false` without emitting `recording false`, so the combination
"last emitted recording = true, connected = false" is observable (see the
counterexample). -/
theorem C2_disconnect_recording_amended (d : Device) (cfg : Config)
    (running : Nat → Bool) (procs : List (Nat × String)) (s : St)
    (hconn : s.w.connected = true)
    (hnone : procs.find? (fun q => procNameMatches q.2) = none) :
    (runTick d cfg running procs s).w.connected = false ∧
    (runTick d cfg running procs s).events =
      s.events ++ [Event.connection false, Event.recording false,
        Event.status STATUS_DISCONNECTED] := by
  simp [runTick, check_shogun_process, hnone, hconn, emit, logAt]

/-- Witness for the amended claim C2 on `deadDev` with an empty process
table. -/
theorem C2_disconnect_recording_amended_witness :
    (runTick deadDev cfg1 runTrue [] stConn).w.connected = false ∧
    (runTick deadDev cfg1 runTrue [] stConn).events =
      stConn.events ++ [Event.connection false, Event.recording false,
        Event.status STATUS_DISCONNECTED] :=
  C2_disconnect_recording_amended deadDev cfg1 runTrue [] stConn rfl rfl

/-- Claim C3: the reconnect sequence (i) makes at most `max_attempts` connect
attempts whatever the device and running flag do; (ii) the wait after failed
attempt `n+1` is `min(base_delay * 1.5^n, max_delay)` seconds, (iii) realised
as `int(delay*10)` slices of ~100 ms; (iv) each slice first checks the
running flag and bails out at once when it is false; and (v) under continuous
connect failures (running flag held true) the sequence returns failure after
exactly `max_attempts` attempts, having waited the full backoff schedule
(total slice-clock advance `Σ_(n=1..max) int(10 * min(base*1.5^(n-1), max_delay))`),
with no further retry inside the sequence. -/
theorem C3_reconnect_bounded_backoff (cfg : Config) :
    (∀ (d : Device) (running : Nat → Bool) (s : St),
        (reconnect_shogun d cfg running s).2.c.ctor ≤ s.c.ctor + cfg.maxAttempts) ∧
    (∀ n : Nat, delayFor cfg (n + 1) = min (cfg.baseDelay * (3 / 2) ^ n) cfg.maxDelay) ∧
    (∀ n : Nat, slicesFor cfg n = (⌊delayFor cfg n * 10⌋).toNat) ∧
    (∀ (running : Nat → Bool) (s : St) (n : Nat), running s.t = false →
        sliceWait running s (n + 1) = (false, s)) ∧
    (∀ (d : Device) (s : St), (∀ i, d.clientCtor i = false) →
        (reconnect_shogun d cfg runTrue s).1 = false ∧
        (reconnect_shogun d cfg runTrue s).2.c.ctor = s.c.ctor + cfg.maxAttempts ∧
        (reconnect_shogun d cfg runTrue s).2.t =
          s.t + ∑ i ∈ Finset.range cfg.maxAttempts, slicesFor cfg (i + 1)) := by
  refine ⟨?_, ?_, ?_, ?_, ?_⟩
  · intro d running s
    have h := reconnectLoop_ctor_le d cfg running (cfg.maxAttempts + 1) 0
      (logAt .info "reconnecting" s)
    simpa [reconnect_shogun, logAt] using h
  · intro n; rfl
  · intro n; rfl
  · intro running s n h; simp [sliceWait, h]
  · intro d s hfail
    obtain ⟨h1, h2, h3, h4⟩ := reconnectLoop_allFail d cfg hfail cfg.maxAttempts
      (cfg.maxAttempts + 1) 0 (logAt .info "reconnecting" s)
      (by omega) (by omega)
    have hsum : (∑ i ∈ Finset.range cfg.maxAttempts, slicesFor cfg (0 + 1 + i)) =
        ∑ i ∈ Finset.range cfg.maxAttempts, slicesFor cfg (i + 1) :=
      Finset.sum_congr rfl fun i _ => by congr 1; omega
    refine ⟨by simpa [reconnect_shogun] using h1, ?_, ?_⟩
    · have := h3
      simp only [logAt] at this
      simpa [reconnect_shogun, logAt] using this
    · have := h4
      rw [hsum] at this
      simp only [logAt] at this
      simpa [reconnect_shogun, logAt] using this

/-- Witness for claim C3 at `cfg2` (2 attempts, base 1 s, cap 100 s) with the
always-failing `deadDev`. -/
theorem C3_reconnect_bounded_backoff_witness :
    (reconnect_shogun deadDev cfg2 runTrue st0).1 = false ∧
    (reconnect_shogun deadDev cfg2 runTrue st0).2.c.ctor = st0.c.ctor + cfg2.maxAttempts ∧
    (reconnect_shogun deadDev cfg2 runTrue st0).2.t =
      st0.t + ∑ i ∈ Finset.range cfg2.maxAttempts, slicesFor cfg2 (i + 1) :=
  (C3_reconnect_bounded_backoff cfg2).2.2.2.2 deadDev st0 (fun _ => rfl)

/-- Claim C4: when `startcapture` finds the device already recording after
connectivity is ensured, it returns the "already_recording" outcome with zero
`start_capture` device calls and no events; consequently, in the
two-invocation scenario on `c4Dev` (connected, first call starts the capture,
device reports "Started" from then on), the second invocation returns
"already_recording" and the two invocations together issue exactly one
`start_capture` device call. -/
theorem C4_start_idempotent (d : Device) (cfg : Config) (running : Nat → Bool) (s : St)
    (str1 str2 : String)
    (hcl : s.w.hasClient = true) (hcap : s.w.hasCapture = true)
    (h0 : d.latestState s.c.latest = .ok str1)
    (h1 : d.latestState (s.c.latest + 1) = .ok str2)
    (hrec : containsStarted str2 = true) :
    ((startcapture d cfg running s).1 = some "already_recording" ∧
     (startcapture d cfg running s).2.c.start = s.c.start ∧
     (startcapture d cfg running s).2.events = s.events) ∧
    ((startcapture c4Dev cfg1 runTrue stC4).1 = some "started" ∧
     (startcapture c4Dev cfg1 runTrue
        (startcapture c4Dev cfg1 runTrue stC4).2).1 = some "already_recording" ∧
     (startcapture c4Dev cfg1 runTrue
        (startcapture c4Dev cfg1 runTrue stC4).2).2.c.start = 1) := by
  constructor
  · simp [startcapture, ensure_connection, check_shogun, callLatest, callStart,
      hcl, hcap, h0, h1, hrec, logAt]
  · refine ⟨by decide, by decide, by decide⟩

/-- Witness for claim C4: the second invocation of the `c4Dev` scenario is
exactly the already-recording case of the general statement. -/
theorem C4_start_idempotent_witness :
    (((startcapture c4Dev cfg1 runTrue
        (startcapture c4Dev cfg1 runTrue stC4).2).1 = some "already_recording" ∧
      (startcapture c4Dev cfg1 runTrue
        (startcapture c4Dev cfg1 runTrue stC4).2).2.c.start =
          (startcapture c4Dev cfg1 runTrue stC4).2.c.start ∧
      (startcapture c4Dev cfg1 runTrue
        (startcapture c4Dev cfg1 runTrue stC4).2).2.events =
          (startcapture c4Dev cfg1 runTrue stC4).2.events) ∧
     ((startcapture c4Dev cfg1 runTrue stC4).1 = some "started" ∧
      (startcapture c4Dev cfg1 runTrue
        (startcapture c4Dev cfg1 runTrue stC4).2).1 = some "already_recording" ∧
      (startcapture c4Dev cfg1 runTrue
        (startcapture c4Dev cfg1 runTrue stC4).2).2.c.start = 1)) :=
  C4_start_idempotent c4Dev cfg1 runTrue (startcapture c4Dev cfg1 runTrue stC4).2
    "Started" "Started" (by decide) (by decide) (by rfl) (by rfl) (by decide)

/-- Claim C5: with connectivity ensured (client and capture handles present
and the liveness probe answering) and the device not recording, `stopcapture`
returns `True` having made zero `stop_capture` device calls (only the two
read-only `latest_capture_state` probes of the connectivity check and the
recording check) and emits no event. -/
theorem C5_stop_idempotent (d : Device) (cfg : Config) (running : Nat → Bool) (s : St)
    (str1 str2 : String)
    (hcl : s.w.hasClient = true) (hcap : s.w.hasCapture = true)
    (h0 : d.latestState s.c.latest = .ok str1)
    (h1 : d.latestState (s.c.latest + 1) = .ok str2)
    (hrec : containsStarted str2 = false) :
    (stopcapture d cfg running s).1 = true ∧
    (stopcapture d cfg running s).2.c.stop = s.c.stop ∧
    (stopcapture d cfg running s).2.events = s.events ∧
    (stopcapture d cfg running s).2.c.latest = s.c.latest + 2 := by
  simp [stopcapture, ensure_connection, check_shogun, callLatest, callStop,
    hcl, hcap, h0, h1, hrec, logAt]

/-- Witness for claim C5 on `okDev` (reports "Stopped") and `stConn`. -/
theorem C5_stop_idempotent_witness :
    (stopcapture okDev cfg1 runTrue stConn).1 = true ∧
    (stopcapture okDev cfg1 runTrue stConn).2.c.stop = stConn.c.stop ∧
    (stopcapture okDev cfg1 runTrue stConn).2.events = stConn.events ∧
    (stopcapture okDev cfg1 runTrue stConn).2.c.latest = stConn.c.latest + 2 :=
  C5_stop_idempotent okDev cfg1 runTrue stConn "Stopped" "Stopped" rfl rfl rfl rfl (by rfl)

/-- Claim C6: each of the three argument-taking handlers
(`set_capture_name`, `set_capture_folder`, `set_capture_description`),
invoked with an empty argument list, emits exactly one (error) notification
on `message_signal`, sends exactly one outbound error datagram, and
dispatches no Session-Supervisor operation (hence zero device calls — these
handlers never touch the device in this branch); the handler returns
normally, so the error never propagates past it. -/
theorem C6_missing_arg_single_error (worker : WorkerRef) (address : String) (o : OSCState) :
    (osc_set_capture_name worker address [] o).messages =
        o.messages ++ [(address, "error: missing capture name")] ∧
    (osc_set_capture_name worker address [] o).supCalls = o.supCalls ∧
    (osc_set_capture_name worker address [] o).outbound =
        o.outbound ++ [(OSC_CAPTURE_ERROR, "missing capture name")] ∧
    (osc_set_capture_folder worker address [] o).messages =
        o.messages ++ [(address, "error: missing capture folder")] ∧
    (osc_set_capture_folder worker address [] o).supCalls = o.supCalls ∧
    (osc_set_capture_folder worker address [] o).outbound =
        o.outbound ++ [(OSC_CAPTURE_ERROR, "missing capture folder")] ∧
    (osc_set_capture_description worker address [] o).messages =
        o.messages ++ [(address, "error: missing capture description")] ∧
    (osc_set_capture_description worker address [] o).supCalls = o.supCalls ∧
    (osc_set_capture_description worker address [] o).outbound =
        o.outbound ++ [(OSC_CAPTURE_ERROR, "missing capture description")] := by
  simp [osc_set_capture_name, osc_set_capture_folder, osc_set_capture_description,
    oscMsg, oscSend, oscLog]

/-- Claim C7, counterexample: connecting to `okDev` (capture name "A" —
non-empty — and capture folder "" — empty) succeeds and snapshots both
values, but the only change event emitted is `folderChanged ""`: the
non-empty name gets no change event, while the empty folder does get one —
the opposite of the claim's "a change event for each of the two values that
is non-empty (and no change event for an empty value)". -/
theorem C7_counterexample :
    (connect_shogun okDev st0).1 = true ∧
    (connect_shogun okDev st0).2.w.currentName = "A" ∧
    "A" ≠ "" ∧
    (connect_shogun okDev st0).2.events = [Event.folderChanged ""] ∧
    Event.nameChanged "A" ∉ (connect_shogun okDev st0).2.events := by
  refine ⟨by decide, by decide, by decide, by decide, by decide⟩

/-- Claim C7 (amended): on a successful connect (client construction,
liveness probe, and both settings queries succeed), the supervisor captures
the device's capture name and folder as its snapshot, emits a
`capture_folder_changed` event for the folder — unconditionally, whatever the
value, empty included — and emits no `capture_name_changed` event. -/
theorem C7_connect_snapshot_amended (d : Device) (s : St) (str nm fl : String)
    (hctor : d.clientCtor s.c.ctor = true)
    (hlive : d.latestState s.c.latest = .ok str)
    (hname : d.captureNameQ s.c.nameQ = .ok (true, nm))
    (hfolder : d.captureFolderQ s.c.folderQ = .ok (true, fl)) :
    (connect_shogun d s).1 = true ∧
    (connect_shogun d s).2.w.currentName = nm ∧
    (connect_shogun d s).2.w.currentFolder = fl ∧
    (connect_shogun d s).2.events = s.events ++ [Event.folderChanged fl] := by
  simp [connect_shogun, test_connection, callLatest, callNameQ, callFolderQ,
    hctor, hlive, hname, hfolder, emit, logAt]

/-- Witness for the amended claim C7 on `okDev` from a fresh state. -/
theorem C7_connect_snapshot_amended_witness :
    (connect_shogun okDev st0).1 = true ∧
    (connect_shogun okDev st0).2.w.currentName = "A" ∧
    (connect_shogun okDev st0).2.w.currentFolder = "" ∧
    (connect_shogun okDev st0).2.events = st0.events ++ [Event.folderChanged ""] :=
  C7_connect_snapshot_amended okDev st0 "Stopped" "A" "" rfl rfl rfl rfl

/-- Claim C8: when the periodic process check sees a Shogun process whose PID
`q` differs from the recorded (truthy) PID `p` while the worker is connected,
it treats this as a restart: the check itself records the new PID and forces
`connected := false` while still reporting the process as present, and the
same `runTick` therefore falls into the "process present but not connected"
branch and immediately makes exactly one fresh connect attempt (client
construction counter +1). -/
theorem C8_pid_change_forces_reconnect (d : Device) (cfg : Config)
    (running : Nat → Bool) (procs : List (Nat × String)) (s : St)
    (p q : Nat) (nm : String)
    (hconn : s.w.connected = true)
    (hpid : s.w.shogunPid = some p) (hp0 : p ≠ 0)
    (hfind : procs.find? (fun pr => procNameMatches pr.2) = some (q, nm))
    (hne : q ≠ p) :
    (check_shogun_process procs s).1 = true ∧
    (check_shogun_process procs s).2.w.connected = false ∧
    (check_shogun_process procs s).2.w.shogunPid = some q ∧
    (runTick d cfg running procs s).c.ctor = s.c.ctor + 1 := by
  have hstep : check_shogun_process procs s =
      (true, logAt .info "shogun restart detected"
        { s with w := { s.w with shogunPid := some q, connected := false } }) := by
    have hqp : p ≠ q := fun h => hne h.symm
    simp [check_shogun_process, hfind, hpid, pidTruthy, hp0, hqp]
  refine ⟨by simp [hstep], by simp [hstep, logAt], by simp [hstep, logAt], ?_⟩
  rw [runTick, hstep]
  dsimp only
  simp only [logAt]
  rcases hc : connect_shogun d
      { w := { s.w with shogunPid := some q, connected := false },
        c := s.c, events := s.events,
        logs := (s.logs ++ [(LogLevel.info, "shogun restart detected")]) ++
          [(LogLevel.info, "shogun detected, connecting")],
        t := s.t } with ⟨ok, s2⟩
  have h2 : s2.c.ctor = s.c.ctor + 1 := by
    have := connect_shogun_ctor d
      { w := { s.w with shogunPid := some q, connected := false },
        c := s.c, events := s.events,
        logs := (s.logs ++ [(LogLevel.info, "shogun restart detected")]) ++
          [(LogLevel.info, "shogun detected, connecting")],
        t := s.t }
    rw [hc] at this
    exact this
  simp [hc, emit, h2]

/-- Witness for claim C8: recorded PID 5, observed process `(7, "ShogunLive")`. -/
theorem C8_pid_change_forces_reconnect_witness :
    (check_shogun_process [(7, "ShogunLive")] stConn).1 = true ∧
    (check_shogun_process [(7, "ShogunLive")] stConn).2.w.connected = false ∧
    (check_shogun_process [(7, "ShogunLive")] stConn).2.w.shogunPid = some 7 ∧
    (runTick okDev cfg1 runTrue [(7, "ShogunLive")] stConn).c.ctor = stConn.c.ctor + 1 :=
  C8_pid_change_forces_reconnect okDev cfg1 runTrue [(7, "ShogunLive")] stConn
    5 7 "ShogunLive" rfl rfl (by decide) (by decide) (by decide)

/-- Claim C9: if the device API handle does not provide a
set-capture-description operation, `set_capture_description` detects this via
the `hasattr` capability check (the `match` on `setDescriptionC` here, not
the exception branch), logs a warning, and returns `False`; the state is
otherwise untouched — in particular no device call is consumed, no
exception-path error log appears, and nothing is raised to the caller (the
embedded operation is a total function). -/
theorem C9_set_description_capability_check (d : Device) (description : String) (s : St)
    (hcap : s.w.hasCapture = true) (habsent : d.setDescriptionC = none) :
    set_capture_description d description s =
      (false, logAt .warning "api lacks set_capture_description" s) := by
  simp [set_capture_description, hcap, habsent]

/-- Witness for claim C9 on `okDev`, which lacks `set_capture_description`. -/
theorem C9_set_description_capability_check_witness :
    set_capture_description okDev "d" stConn =
      (false, logAt .warning "api lacks set_capture_description" stConn) :=
  C9_set_description_capability_check okDev "d" stConn rfl rfl

/-- Claim C10: during the periodic capture-settings poll, a falsy
capture-name result short-circuits the whole check: the capture-folder query
is not performed (its call counter is unchanged) and no event — in particular
no folder-change event — is emitted that tick. -/
theorem C10_name_query_failure_short_circuits (d : Device) (s : St) (nm : String)
    (hcap : s.w.hasCapture = true)
    (hname : d.captureNameQ s.c.nameQ = .ok (false, nm)) :
    (check_capture_settings_change d s).c.folderQ = s.c.folderQ ∧
    (check_capture_settings_change d s).events = s.events ∧
    (check_capture_settings_change d s).c.nameQ = s.c.nameQ + 1 := by
  simp [check_capture_settings_change, callNameQ, hcap, hname, logAt]

/-- Witness for claim C10 on `nameFailDev`. -/
theorem C10_name_query_failure_short_circuits_witness :
    (check_capture_settings_change nameFailDev stConn).c.folderQ = stConn.c.folderQ ∧
    (check_capture_settings_change nameFailDev stConn).events = stConn.events ∧
    (check_capture_settings_change nameFailDev stConn).c.nameQ = stConn.c.nameQ + 1 :=
  C10_name_query_failure_short_circuits nameFailDev stConn "X" rfl rfl
